import Mathlib

/-!
Verification of the inter-node RPC client layer of pitaya-rs
(src/cluster/rpc_client.rs) and its metrics helpers
(src/pitaya_core/src/metrics.rs), as a shallow embedding in Lean 4.

The transport substrate (NATS), the protobuf codec, the error enum and the
topic-derivation helpers live outside the two source files; they are
modelled from the specification where noted.  Network behaviour is
abstracted as an environment: a function from (topic, payload) to a
transport outcome, plus an optional failure of the blocking worker.  Each
operation is embedded as a pure function from client state, environment and
arguments to a result together with a trace of the transport requests it
issued, every trace event tagged with the execution context it ran on.
-/

namespace Pitaya

/-- ServerId is an opaque string uniquely identifying a running instance. -/
structure ServerId where
  val : String
  deriving DecidableEq, Repr

/-- ServerKind is an opaque string naming a class of servers. -/
structure ServerKind where
  val : String
  deriving DecidableEq, Repr

/-- Server describes a cluster member (id, kind, hostname, frontend flag,
metadata).  The RPC layer only reads it to derive a topic. -/
structure Server where
  id : ServerId
  kind : ServerKind
  hostname : String
  frontend : Bool
  metadata : List (String × String)
  deriving DecidableEq, Repr

/-- Modelled from the spec: the embedded message of a Request — message type
discriminator, route string, opaque byte payload. -/
structure Msg where
  type : Nat
  route : String
  data : List Nat
  deriving DecidableEq, Repr

/-- Modelled from the spec: a Request carries an RPC kind discriminator, an
embedded Msg, a frontend-server identifier and opaque metadata bytes. -/
structure Request where
  type : Nat
  msg : Option Msg
  frontend_id : String
  metadata : List Nat
  deriving DecidableEq, Repr

/-- Modelled from the spec: a Response carries an opaque byte payload and an
optional error indicator. -/
structure Response where
  data : List Nat
  error : Option String
  deriving DecidableEq, Repr

/-- Modelled from the spec: KickMsg requests forcible disconnection of the
user session identified by user_id. -/
structure KickMsg where
  user_id : String
  deriving DecidableEq, Repr

/-- Modelled from the spec: KickAnswer acknowledges a kick. -/
structure KickAnswer where
  kicked : Bool
  deriving DecidableEq, Repr

/-- Modelled from the spec: Push is a fire-and-forget payload addressed to a
user session — uid plus opaque payload. -/
structure Push where
  uid : String
  data : List Nat
  deriving DecidableEq, Repr

/-- Modelled from the spec: wire buffers produced by the fixed binary
encoding.  A buffer is either the encoding of one of the typed payloads or
malformed bytes on which decoding fails. -/
inductive Bytes where
  | requestBytes (r : Request)
  | responseBytes (r : Response)
  | kickMsgBytes (k : KickMsg)
  | kickAnswerBytes (k : KickAnswer)
  | pushBytes (p : Push)
  | malformed (code : Nat)
  deriving DecidableEq, Repr

/-- Modelled from the spec: utils::encode_proto specialised to Request. -/
def encode_request (r : Request) : Bytes := .requestBytes r

/-- Modelled from the spec: utils::encode_proto specialised to KickMsg. -/
def encode_kick_msg (k : KickMsg) : Bytes := .kickMsgBytes k

/-- Modelled from the spec: utils::encode_proto specialised to Push. -/
def encode_push (p : Push) : Bytes := .pushBytes p

/-- Modelled from the spec: prost Message::decode for Response: total, fails
with a decode error (carried as a code) on any buffer that is not an encoded
Response. -/
def decode_response : Bytes → Except Nat Response
  | .responseBytes r => .ok r
  | _ => .error 0

/-- Modelled from the spec: prost Message::decode for KickAnswer. -/
def decode_kick_answer : Bytes → Except Nat KickAnswer
  | .kickAnswerBytes k => .ok k
  | _ => .error 0

/-- Modelled from the spec: utils::topic_for_server — the server-call topic,
a pure deterministic function of the target server kind and id. -/
def topic_for_server (s : Server) : String :=
  "pitaya/servers/" ++ s.kind.val ++ "/" ++ s.id.val

/-- Modelled from the spec: utils::user_kick_topic — the user-kick topic, a
pure deterministic function of (user id, server kind). -/
def user_kick_topic (user_id : String) (k : ServerKind) : String :=
  "pitaya/" ++ k.val ++ "/user/" ++ user_id ++ "/kick"

/-- Modelled from the spec: utils::user_messages_topic — the user-push topic,
a pure deterministic function of (user id, server kind). -/
def user_messages_topic (user_id : String) (k : ServerKind) : String :=
  "pitaya/" ++ k.val ++ "/user/" ++ user_id ++ "/push"

/-- Errors of the nats transport crate, as observed through the repository:
request_timeout fails either with an io error of kind TimedOut when no reply
arrives in time, or with another io error (carried as a code). -/
inductive NatsError where
  | timedOut
  | ioErr (code : Nat)
  deriving DecidableEq, Repr

/-- Modelled from the spec: the error taxonomy of the repository Error enum,
restricted to the variants reachable from rpc_client.rs — Nats transport
errors (Error::Nats), no live connection (Error::NatsConnectionNotOpen),
empty identifiers (Error::InvalidUserId / Error::InvalidServerKind), decode
failures (Error::InvalidProto) and a failure of the spawned blocking worker
itself (the join error converted by the second question mark of await). -/
inductive Error where
  | Nats (e : NatsError)
  | NatsConnectionNotOpen
  | InvalidUserId
  | InvalidServerKind
  | InvalidProto (code : Nat)
  | TokioJoin (code : Nat)
  deriving DecidableEq, Repr

/-- Config of the NATS client (Durations carried as whole seconds). -/
structure Config where
  address : String
  connection_timeout : Nat
  request_timeout : Nat
  max_reconnection_attempts : Nat
  max_pending_messages : Nat
  deriving DecidableEq, Repr

/-- Default for Config, from the source Default impl. -/
def Config.default : Config :=
  { address := "http://localhost:4222"
    connection_timeout := 10
    request_timeout := 10
    max_reconnection_attempts := 5
    max_pending_messages := 100 }

/-- A live handle to the transport substrate (nats::Connection), abstracted
to a token. -/
structure Connection where
  token : Nat
  deriving DecidableEq, Repr

/-- NatsClient state: the shared config and zero-or-one live connection.
The logger field of the source only emits trace logs and is omitted. -/
structure NatsClient where
  config : Config
  connection : Option Connection
  deriving DecidableEq, Repr

/-- NatsClient::new starts Disconnected. -/
def NatsClient.new (config : Config) : NatsClient :=
  { config := config, connection := none }

/-- Outcome the transport substrate gives to one request-with-timeout:
a reply buffer, a timeout, or another io error. -/
inductive NatsOutcome where
  | reply (data : Bytes)
  | timedOut
  | ioErr (code : Nat)
  deriving DecidableEq, Repr

/-- Execution context a transport exchange runs on: the cooperative
scheduler task that invoked the operation, or the dedicated blocking worker
obtained through tokio::task::spawn_blocking. -/
inductive ExecCtx where
  | callerTask
  | blockingWorker
  deriving DecidableEq, Repr

/-- One transport request-with-timeout issued by an operation, recorded with
the execution context it ran on. -/
structure TransportRequest where
  ctx : ExecCtx
  topic : String
  payload : Bytes
  timeoutSecs : Nat
  deriving DecidableEq, Repr

/-- Environment abstracting the network and the runtime: the substrate's
outcome for each (topic, payload) request, and whether awaiting a
spawn_blocking task fails with a join error instead of running the work. -/
structure Env where
  request : String → Bytes → NatsOutcome
  spawnJoinError : Option Nat

/-- Result of a Rust function that may panic. -/
inductive PanicOr (α : Type) where
  | panicked (msg : String)
  | value (a : α)
  deriving DecidableEq, Repr

/-- NatsClient::connect — asserts no connection is held, then connects; on
substrate failure the error is wrapped as Error::Nats and the state is
unchanged.  The environment supplies the substrate outcome. -/
def NatsClient.connect (c : NatsClient) (outcome : Except NatsError Connection) :
    PanicOr (Except Error Unit × NatsClient) :=
  if c.connection.isSome then
    .panicked "assertion failed: self.connection.is_none()"
  else
    match outcome with
    | .error e => .value (.error (.Nats e), c)
    | .ok nc => .value (.ok (), { c with connection := some nc })

/-- NatsClient::close — takes the connection out of the state, closing the
underlying handle when one was held.  The Bool records whether the
underlying nats close ran. -/
def NatsClient.close (c : NatsClient) : NatsClient × Bool :=
  match c.connection with
  | some _conn => ({ c with connection := none }, true)
  | none => (c, false)

/-- RpcClient::call for NatsClient: checks the connection, derives the
server topic, encodes the request, then runs the request-with-timeout and
the decode inside spawn_blocking; the double question mark on await first
surfaces a join error of the worker, then the inner result. -/
def NatsClient.call (c : NatsClient) (env : Env) (target : Server)
    (req : Request) : Except Error Response × List TransportRequest :=
  match c.connection with
  | none => (.error .NatsConnectionNotOpen, [])
  | some _conn =>
    let topic := topic_for_server target
    let buffer := encode_request req
    let request_timeout := c.config.request_timeout
    match env.spawnJoinError with
    | some code => (.error (.TokioJoin code), [])
    | none =>
      let ev : TransportRequest :=
        { ctx := .blockingWorker, topic := topic, payload := buffer,
          timeoutSecs := request_timeout }
      match env.request topic buffer with
      | .timedOut => (.error (.Nats .timedOut), [ev])
      | .ioErr code => (.error (.Nats (.ioErr code)), [ev])
      | .reply data =>
        match decode_response data with
        | .error code => (.error (.InvalidProto code), [ev])
        | .ok msg => (.ok msg, [ev])

/-- RpcClient::kick_user for NatsClient: checks the connection, validates
user id and server kind (the server id argument is ignored), then runs
topic derivation, encoding, the request-with-timeout and the decode inside
spawn_blocking. -/
def NatsClient.kick_user (c : NatsClient) (env : Env) (_server_id : ServerId)
    (server_kind : ServerKind) (kick_msg : KickMsg) :
    Except Error KickAnswer × List TransportRequest :=
  match c.connection with
  | none => (.error .NatsConnectionNotOpen, [])
  | some _conn =>
    if kick_msg.user_id.isEmpty then (.error .InvalidUserId, [])
    else if server_kind.val.isEmpty then (.error .InvalidServerKind, [])
    else
      let request_timeout := c.config.request_timeout
      match env.spawnJoinError with
      | some code => (.error (.TokioJoin code), [])
      | none =>
        let topic := user_kick_topic kick_msg.user_id server_kind
        let kick_buffer := encode_kick_msg kick_msg
        let ev : TransportRequest :=
          { ctx := .blockingWorker, topic := topic, payload := kick_buffer,
            timeoutSecs := request_timeout }
        match env.request topic kick_buffer with
        | .timedOut => (.error (.Nats .timedOut), [ev])
        | .ioErr code => (.error (.Nats (.ioErr code)), [ev])
        | .reply data =>
          match decode_kick_answer data with
          | .error code => (.error (.InvalidProto code), [ev])
          | .ok k => (.ok k, [ev])

/-- RpcClient::push_to_user for NatsClient: checks the connection, validates
uid and server kind (the server id argument is ignored), then issues the
request-with-timeout directly on the calling context — the source function
is synchronous and uses no spawn_blocking — and discards the reply message,
returning unit on any reply. -/
def NatsClient.push_to_user (c : NatsClient) (env : Env)
    (_server_id : ServerId) (server_kind : ServerKind) (push_msg : Push) :
    Except Error Unit × List TransportRequest :=
  match c.connection with
  | none => (.error .NatsConnectionNotOpen, [])
  | some _conn =>
    if push_msg.uid.isEmpty then (.error .InvalidUserId, [])
    else if server_kind.val.isEmpty then (.error .InvalidServerKind, [])
    else
      let topic := user_messages_topic push_msg.uid server_kind
      let push_buffer := encode_push push_msg
      let ev : TransportRequest :=
        { ctx := .callerTask, topic := topic, payload := push_buffer,
          timeoutSecs := c.config.request_timeout }
      match env.request topic push_buffer with
      | .timedOut => (.error (.Nats .timedOut), [ev])
      | .ioErr code => (.error (.Nats (.ioErr code)), [ev])
      | .reply _data => (.ok (), [ev])

end Pitaya

namespace Metrics

open Pitaya (PanicOr)

/-- Metrics error enum of pitaya_core::metrics. -/
inductive MetricsError where
  | invalidMetric (s : String)
  | failedToStartServer (s : String)
  deriving DecidableEq, Repr

/-- Reporter trait, restricted to the synchronous runtime operations the
convenience helpers use (f64 values carried as rationals).  Each operation
of a concrete reporter may fail with a metrics error. -/
structure Reporter where
  inc_counter : String → List String → Except MetricsError Unit
  observe_hist : String → Rat → List String → Except MetricsError Unit
  set_gauge : String → Rat → List String → Except MetricsError Unit
  add_gauge : String → Rat → List String → Except MetricsError Unit

/-- DummyReporter: every operation succeeds doing nothing. -/
def DummyReporter : Reporter :=
  { inc_counter := fun _ _ => .ok ()
    observe_hist := fun _ _ _ => .ok ()
    set_gauge := fun _ _ _ => .ok ()
    add_gauge := fun _ _ _ => .ok () }

/-- Warning log entries the helpers may emit. -/
inductive LogEvent where
  | warn (msg : String)
  deriving DecidableEq, Repr

/-- Loop body of exponential_buckets: push the running value, multiply by
the factor, count times. -/
def bucketsLoop (factor : Rat) : Rat → Nat → List Rat
  | _next, 0 => []
  | next, n + 1 => next :: bucketsLoop factor (next * factor) n

/-- exponential_buckets — asserts count is at least one, start positive and
factor above one (panicking otherwise), then builds the geometric bucket
list (f64 arithmetic carried exactly on rationals; the loop structure is the
source's). -/
def exponential_buckets (start factor : Rat) (count : Nat) : PanicOr (List Rat) :=
  if ¬ count ≥ 1 then .panicked "assertion failed: count >= 1"
  else if ¬ start > 0 then .panicked "assertion failed: start > 0.0"
  else if ¬ factor > 1 then .panicked "assertion failed: factor > 1.0"
  else .value (bucketsLoop factor start count)

/-- record_histogram_duration — observes the elapsed duration (now minus
start, the clock passed in explicitly) on the histogram; a reporter error is
turned into a warning log and never returned: the helper has no error in
its result type and cannot panic. -/
def record_histogram_duration (reporter : Reporter) (name : String)
    (now start : Rat) (labels : List String) : List LogEvent :=
  let elapsed := now - start
  match reporter.observe_hist name elapsed labels with
  | .error _e => [.warn "observe_hist failed"]
  | .ok _ => []

/-- add_to_gauge — adds the delta to the gauge; a reporter error is turned
into a warning log and never returned. -/
def add_to_gauge (reporter : Reporter) (name : String) (value : Rat)
    (labels : List String) : List LogEvent :=
  match reporter.add_gauge name value labels with
  | .error _e => [.warn "add_gauge failed"]
  | .ok _ => []

end Metrics

namespace Pitaya

/-! Concrete fixtures used by witnesses and counterexamples. -/

/-- Environment whose substrate times out every request; the worker runs. -/
def envTimeout : Env :=
  { request := fun _ _ => .timedOut, spawnJoinError := none }

/-- Environment whose substrate replies with malformed bytes. -/
def envGarbage : Env :=
  { request := fun _ _ => .reply (.malformed 7), spawnJoinError := none }

/-- Environment whose substrate fails with a non-timeout io error. -/
def envIoErr : Env :=
  { request := fun _ _ => .ioErr 5, spawnJoinError := none }

/-- Environment in which awaiting the blocking worker fails with a join
error. -/
def envJoinFail : Env :=
  { request := fun _ _ => .timedOut, spawnJoinError := some 3 }

/-- Sample target server, mirroring the timeout test of the source. -/
def sampleServer : Server :=
  { id := { val := "my_id" }, kind := { val := "metagame" },
    hostname := "hostname", frontend := false, metadata := [] }

/-- Sample request, mirroring the tests of the source. -/
def sampleRequest : Request :=
  { type := 0, msg := some { type := 0, route := "room.join", data := [] },
    frontend_id := "", metadata := [] }

/-- Sample server id argument (ignored by kick and push). -/
def sampleSid : ServerId := { val := "1234567" }

/-- Sample non-empty server kind. -/
def sampleKind : ServerKind := { val := "room" }

/-- Sample kick message with a non-empty user id. -/
def sampleKick : KickMsg := { user_id := "user1" }

/-- Sample push message with a non-empty uid. -/
def samplePush : Push := { uid := "user1", data := [1, 2] }

/-- Freshly created client: Disconnected. -/
def disconnectedClient : NatsClient := NatsClient.new Config.default

/-- Client holding a live connection. -/
def connectedClient : NatsClient :=
  { config := Config.default, connection := some { token := 0 } }

/-- C1: every RpcClient operation — call, kick_user and push_to_user — on a
client holding no open connection fails immediately with
Error.NatsConnectionNotOpen and issues no transport request (the trace of
transport activity is empty, so nothing blocks or queues). -/
theorem C1_disconnected_fails_without_io (c : NatsClient) (env : Env)
    (target : Server) (req : Request) (sid : ServerId) (kind : ServerKind)
    (kmsg : KickMsg) (pmsg : Push) (h : c.connection = none) :
    c.call env target req = (.error .NatsConnectionNotOpen, [])
      ∧ c.kick_user env sid kind kmsg = (.error .NatsConnectionNotOpen, [])
      ∧ c.push_to_user env sid kind pmsg = (.error .NatsConnectionNotOpen, []) := by
  refine ⟨?_, ?_, ?_⟩ <;>
    simp [NatsClient.call, NatsClient.kick_user, NatsClient.push_to_user, h]

/-- C1 witness: the fresh client is disconnected, and all three operations
fail there with ConnectionNotOpen and an empty transport trace. -/
theorem C1_witness :
    disconnectedClient.call envTimeout sampleServer sampleRequest =
        (.error .NatsConnectionNotOpen, [])
      ∧ disconnectedClient.kick_user envTimeout sampleSid sampleKind sampleKick =
        (.error .NatsConnectionNotOpen, [])
      ∧ disconnectedClient.push_to_user envTimeout sampleSid sampleKind samplePush =
        (.error .NatsConnectionNotOpen, []) :=
  C1_disconnected_fails_without_io disconnectedClient envTimeout sampleServer
    sampleRequest sampleSid sampleKind sampleKick samplePush rfl

/-- C2: on a connected client, kick_user and push_to_user reject an empty
user id with InvalidUserId, and an empty server kind (with non-empty user
id) with InvalidServerKind, regardless of the other fields, with an empty
transport trace — the rejection happens before any network request. -/
theorem C2_empty_identifier_rejected (c : NatsClient) (env : Env)
    (sid : ServerId) (kind : ServerKind) (kmsg : KickMsg) (pmsg : Push)
    (conn : Connection) (h : c.connection = some conn) :
    (kmsg.user_id.isEmpty = true →
        c.kick_user env sid kind kmsg = (.error .InvalidUserId, []))
      ∧ (pmsg.uid.isEmpty = true →
        c.push_to_user env sid kind pmsg = (.error .InvalidUserId, []))
      ∧ (kmsg.user_id.isEmpty = false → kind.val.isEmpty = true →
        c.kick_user env sid kind kmsg = (.error .InvalidServerKind, []))
      ∧ (pmsg.uid.isEmpty = false → kind.val.isEmpty = true →
        c.push_to_user env sid kind pmsg = (.error .InvalidServerKind, [])) := by
  refine ⟨?_, ?_, ?_, ?_⟩ <;> intros <;>
    simp_all [NatsClient.kick_user, NatsClient.push_to_user, h]

/-- C2 witness: concrete empty-identifier rejections on the connected
client. -/
theorem C2_witness :
    connectedClient.kick_user envTimeout sampleSid sampleKind { user_id := "" } =
        (.error .InvalidUserId, [])
      ∧ connectedClient.push_to_user envTimeout sampleSid sampleKind { uid := "", data := [] } =
        (.error .InvalidUserId, [])
      ∧ connectedClient.kick_user envTimeout sampleSid { val := "" } sampleKick =
        (.error .InvalidServerKind, [])
      ∧ connectedClient.push_to_user envTimeout sampleSid { val := "" } samplePush =
        (.error .InvalidServerKind, []) :=
  ⟨(C2_empty_identifier_rejected connectedClient envTimeout sampleSid sampleKind
      { user_id := "" } { uid := "", data := [] } { token := 0 } rfl).1 (by decide),
   (C2_empty_identifier_rejected connectedClient envTimeout sampleSid sampleKind
      { user_id := "" } { uid := "", data := [] } { token := 0 } rfl).2.1 (by decide),
   (C2_empty_identifier_rejected connectedClient envTimeout sampleSid { val := "" }
      sampleKick samplePush { token := 0 } rfl).2.2.1 (by decide) (by decide),
   (C2_empty_identifier_rejected connectedClient envTimeout sampleSid { val := "" }
      sampleKick samplePush { token := 0 } rfl).2.2.2 (by decide) (by decide)⟩

/-- C3: on a connected client with a functioning worker, call fails with the
timeout error (Error.Nats on the TimedOut kind) when the substrate times
out, with the decode error (Error.InvalidProto) when the reply bytes do not
decode as a Response, and with the transport error (Error.Nats on another io
kind) on any other substrate failure; the three error values are pairwise
distinct and distinct from Error.NatsConnectionNotOpen. -/
theorem C3_call_error_taxonomy (c : NatsClient) (env : Env) (target : Server)
    (req : Request) (conn : Connection) (h : c.connection = some conn)
    (hj : env.spawnJoinError = none) :
    (env.request (topic_for_server target) (encode_request req) = .timedOut →
        (c.call env target req).1 = .error (.Nats .timedOut))
      ∧ (∀ code, env.request (topic_for_server target) (encode_request req) = .ioErr code →
        (c.call env target req).1 = .error (.Nats (.ioErr code)))
      ∧ (∀ data code, env.request (topic_for_server target) (encode_request req) = .reply data →
        decode_response data = .error code →
        (c.call env target req).1 = .error (.InvalidProto code))
      ∧ (∀ code code2 : Nat,
        Error.Nats .timedOut ≠ Error.Nats (.ioErr code)
          ∧ Error.Nats .timedOut ≠ Error.InvalidProto code
          ∧ Error.Nats (.ioErr code) ≠ Error.InvalidProto code2
          ∧ Error.Nats .timedOut ≠ Error.NatsConnectionNotOpen
          ∧ Error.Nats (.ioErr code) ≠ Error.NatsConnectionNotOpen
          ∧ Error.InvalidProto code ≠ Error.NatsConnectionNotOpen) := by
  refine ⟨?_, ?_, ?_, ?_⟩ <;> intros <;>
    simp_all [NatsClient.call, h, hj]

/-- C3 witness: the timeout, decode-failure and io-error outcomes of call at
concrete environments. -/
theorem C3_witness :
    (connectedClient.call envTimeout sampleServer sampleRequest).1 =
        .error (.Nats .timedOut)
      ∧ (connectedClient.call envIoErr sampleServer sampleRequest).1 =
        .error (.Nats (.ioErr 5))
      ∧ (connectedClient.call envGarbage sampleServer sampleRequest).1 =
        .error (.InvalidProto 0) :=
  ⟨(C3_call_error_taxonomy connectedClient envTimeout sampleServer sampleRequest
      { token := 0 } rfl rfl).1 rfl,
   (C3_call_error_taxonomy connectedClient envIoErr sampleServer sampleRequest
      { token := 0 } rfl rfl).2.1 5 rfl,
   (C3_call_error_taxonomy connectedClient envGarbage sampleServer sampleRequest
      { token := 0 } rfl rfl).2.2.1 (.malformed 7) 0 rfl rfl⟩

/-- C4: push_to_user on a connected client with non-empty uid and kind
issues exactly one request-with-timeout on the user-push topic with the
configured timeout, whatever the substrate outcome; any reply — decodable or
not — yields unit success (the reply is discarded, never decoded), while a
substrate timeout or io error is returned as an Error.Nats failure. -/
theorem C4_push_discards_reply (c : NatsClient) (env : Env) (sid : ServerId)
    (kind : ServerKind) (pmsg : Push) (conn : Connection)
    (h : c.connection = some conn) (hu : pmsg.uid.isEmpty = false)
    (hk : kind.val.isEmpty = false) :
    (c.push_to_user env sid kind pmsg).2 =
        [{ ctx := .callerTask, topic := user_messages_topic pmsg.uid kind,
           payload := encode_push pmsg, timeoutSecs := c.config.request_timeout }]
      ∧ (∀ data, env.request (user_messages_topic pmsg.uid kind) (encode_push pmsg) = .reply data →
        (c.push_to_user env sid kind pmsg).1 = .ok ())
      ∧ (env.request (user_messages_topic pmsg.uid kind) (encode_push pmsg) = .timedOut →
        (c.push_to_user env sid kind pmsg).1 = .error (.Nats .timedOut))
      ∧ (∀ code, env.request (user_messages_topic pmsg.uid kind) (encode_push pmsg) = .ioErr code →
        (c.push_to_user env sid kind pmsg).1 = .error (.Nats (.ioErr code))) := by
  refine ⟨?_, ?_, ?_, ?_⟩
  · rcases hr : env.request (user_messages_topic pmsg.uid kind) (encode_push pmsg) <;>
      simp_all [NatsClient.push_to_user, h, hu, hk]
  all_goals intros
  all_goals simp_all [NatsClient.push_to_user, h, hu, hk]

/-- C4 witness: a malformed (undecodable) reply still makes push_to_user
succeed with unit, and the trace is the single user-push request. -/
theorem C4_witness :
    (connectedClient.push_to_user envGarbage sampleSid sampleKind samplePush).2 =
        [{ ctx := .callerTask, topic := user_messages_topic samplePush.uid sampleKind,
           payload := encode_push samplePush,
           timeoutSecs := connectedClient.config.request_timeout }]
      ∧ (connectedClient.push_to_user envGarbage sampleSid sampleKind samplePush).1 = .ok () :=
  ⟨(C4_push_discards_reply connectedClient envGarbage sampleSid sampleKind
      samplePush { token := 0 } rfl (by decide) (by decide)).1,
   (C4_push_discards_reply connectedClient envGarbage sampleSid sampleKind
      samplePush { token := 0 } rfl (by decide) (by decide)).2.1 (.malformed 7) rfl⟩

/-- C5: the results of kick_user and push_to_user — value and transport
trace alike — are equal for any two server id arguments, all other
arguments and the client state held fixed: the server id plays no role in
the operation. -/
theorem C5_server_id_irrelevant (c : NatsClient) (env : Env)
    (sid sid2 : ServerId) (kind : ServerKind) (kmsg : KickMsg) (pmsg : Push) :
    c.kick_user env sid kind kmsg = c.kick_user env sid2 kind kmsg
      ∧ c.push_to_user env sid kind pmsg = c.push_to_user env sid2 kind pmsg :=
  ⟨rfl, rfl⟩

/-- C6 counterexample: on a connected client with valid arguments,
push_to_user issues its transport request on the calling execution context,
not on the dedicated blocking worker — refuting the claim that every RPC
operation performs its blocking exchange on a dedicated worker context. -/
theorem C6_counterexample :
    (connectedClient.push_to_user envTimeout sampleSid sampleKind samplePush).2.map
        TransportRequest.ctx = [ExecCtx.callerTask]
      ∧ ExecCtx.callerTask ≠ ExecCtx.blockingWorker := by
  exact ⟨by decide, by decide⟩

/-- C6 (amended): call and kick_user run their blocking transport exchange
inside spawn_blocking — every transport request they issue carries the
dedicated-worker context, and a failure of the worker itself is propagated
as the TokioJoin error, distinct from every transport and decode error —
whereas push_to_user issues its exchange directly on the calling context. -/
theorem C6_amended_worker_contexts (c : NatsClient) (env : Env)
    (target : Server) (req : Request) (sid : ServerId) (kind : ServerKind)
    (kmsg : KickMsg) (pmsg : Push) :
    (∀ ev ∈ (c.call env target req).2, ev.ctx = ExecCtx.blockingWorker)
      ∧ (∀ ev ∈ (c.kick_user env sid kind kmsg).2, ev.ctx = ExecCtx.blockingWorker)
      ∧ (∀ ev ∈ (c.push_to_user env sid kind pmsg).2, ev.ctx = ExecCtx.callerTask)
      ∧ (∀ code conn, c.connection = some conn → env.spawnJoinError = some code →
        (c.call env target req).1 = .error (.TokioJoin code)
          ∧ (kmsg.user_id.isEmpty = false → kind.val.isEmpty = false →
            (c.kick_user env sid kind kmsg).1 = .error (.TokioJoin code))
          ∧ (∀ e, Error.TokioJoin code ≠ Error.Nats e)
          ∧ (∀ d, Error.TokioJoin code ≠ Error.InvalidProto d)
          ∧ Error.TokioJoin code ≠ Error.NatsConnectionNotOpen) := by
  refine ⟨?_, ?_, ?_, ?_⟩
  · cases hc : c.connection with
    | none => simp [NatsClient.call, hc]
    | some conn =>
      cases hj : env.spawnJoinError with
      | some code => simp [NatsClient.call, hc, hj]
      | none =>
        cases hr : env.request (topic_for_server target) (encode_request req) with
        | reply d =>
          cases hd : decode_response d <;>
            simp_all [NatsClient.call, hc, hj, hr]
        | timedOut => simp [NatsClient.call, hc, hj, hr]
        | ioErr code => simp [NatsClient.call, hc, hj, hr]
  · cases hc : c.connection with
    | none => simp [NatsClient.kick_user, hc]
    | some conn =>
      by_cases hu : kmsg.user_id.isEmpty
      · simp [NatsClient.kick_user, hc, hu]
      · by_cases hk : kind.val.isEmpty
        · simp [NatsClient.kick_user, hc, hu, hk]
        · cases hj : env.spawnJoinError with
          | some code => simp [NatsClient.kick_user, hc, hu, hk, hj]
          | none =>
            cases hr : env.request (user_kick_topic kmsg.user_id kind)
                (encode_kick_msg kmsg) with
            | reply d =>
              cases hd : decode_kick_answer d <;>
                simp_all [NatsClient.kick_user, hc, hj, hr]
            | timedOut => simp [NatsClient.kick_user, hc, hu, hk, hj, hr]
            | ioErr code => simp [NatsClient.kick_user, hc, hu, hk, hj, hr]
  · cases hc : c.connection with
    | none => simp [NatsClient.push_to_user, hc]
    | some conn =>
      by_cases hu : pmsg.uid.isEmpty
      · simp [NatsClient.push_to_user, hc, hu]
      · by_cases hk : kind.val.isEmpty
        · simp [NatsClient.push_to_user, hc, hu, hk]
        · cases hr : env.request (user_messages_topic pmsg.uid kind)
              (encode_push pmsg) <;>
            simp_all [NatsClient.push_to_user, hc]
  · intro code conn hc hj
    refine ⟨?_, ?_, ?_, ?_, ?_⟩
    · simp [NatsClient.call, hc, hj]
    · intro hu hk
      simp [NatsClient.kick_user, hc, hu, hk, hj]
    · intro e
      simp
    · intro d
      simp
    · simp

/-- C6 witness for the amended claim: a join failure of the blocking worker
surfaces from call as the TokioJoin error. -/
theorem C6_amended_witness :
    (connectedClient.call envJoinFail sampleServer sampleRequest).1 =
        .error (.TokioJoin 3) :=
  ((C6_amended_worker_contexts connectedClient envJoinFail sampleServer
      sampleRequest sampleSid sampleKind sampleKick samplePush).2.2.2 3
      { token := 0 } rfl rfl).1

/-- C7: close leaves the client Disconnected, and a second close in
succession is a no-op — it returns the same state, does not invoke the
underlying connection close (the flag is false), and close has no error in
its result type: for every starting state, close composed with close equals
close. -/
theorem C7_close_idempotent (c : NatsClient) :
    (c.close).1.close = ((c.close).1, false)
      ∧ (c.close).1.connection = none := by
  cases hc : c.connection <;> simp [NatsClient.close, hc]

/-- C8: connect asserts that no connection is held — on an already-connected
client it panics (fails fast) rather than replacing the connection; on a
disconnected client a substrate failure is returned as Error.Nats with the
state unchanged (still Disconnected), and success installs the single new
connection. -/
theorem C8_connect_single_connection (c : NatsClient)
    (outcome : Except NatsError Connection) :
    (∀ conn, c.connection = some conn →
        c.connect outcome = .panicked "assertion failed: self.connection.is_none()")
      ∧ (∀ e, c.connection = none → outcome = .error e →
        c.connect outcome = .value (.error (.Nats e), c))
      ∧ (∀ nc, c.connection = none → outcome = .ok nc →
        c.connect outcome = .value (.ok (), { c with connection := some nc })) := by
  refine ⟨?_, ?_, ?_⟩ <;> intros <;> simp_all [NatsClient.connect]

/-- C8 witness: connect on the connected client panics at the assertion;
connect failing on the fresh client returns the error with the client still
disconnected. -/
theorem C8_witness :
    connectedClient.connect (.error NatsError.timedOut) =
        .panicked "assertion failed: self.connection.is_none()"
      ∧ disconnectedClient.connect (.error NatsError.timedOut) =
        .value (.error (.Nats .timedOut), disconnectedClient) :=
  ⟨(C8_connect_single_connection connectedClient (.error NatsError.timedOut)).1
      { token := 0 } rfl,
   (C8_connect_single_connection disconnectedClient (.error NatsError.timedOut)).2.1
      NatsError.timedOut rfl rfl⟩

end Pitaya

namespace Metrics

/-- Reporter whose runtime operations all fail, to exercise the
log-and-continue path of the helpers. -/
def failingReporter : Reporter :=
  { inc_counter := fun _ _ => .error (.invalidMetric "boom")
    observe_hist := fun _ _ _ => .error (.invalidMetric "boom")
    set_gauge := fun _ _ _ => .error (.invalidMetric "boom")
    add_gauge := fun _ _ _ => .error (.invalidMetric "boom") }

/-- C9: the convenience helpers always return normally — their result type
carries no error and no panic, only the warning log — and for every
reporter, a failure of the underlying observe_hist or add_gauge call is
turned into exactly one warning log entry while success logs nothing; the
reporter error value is never propagated to the caller. -/
theorem C9_helpers_never_fail (rep : Reporter) (name : String)
    (now start value : Rat) (labels : List String) :
    (∀ e, rep.observe_hist name (now - start) labels = .error e →
        record_histogram_duration rep name now start labels =
          [.warn "observe_hist failed"])
      ∧ (rep.observe_hist name (now - start) labels = .ok () →
        record_histogram_duration rep name now start labels = [])
      ∧ (∀ e, rep.add_gauge name value labels = .error e →
        add_to_gauge rep name value labels = [.warn "add_gauge failed"])
      ∧ (rep.add_gauge name value labels = .ok () →
        add_to_gauge rep name value labels = []) := by
  refine ⟨?_, ?_, ?_, ?_⟩
  all_goals intros
  all_goals simp_all [record_histogram_duration, add_to_gauge]

/-- C9 witness: with a reporter whose calls all fail, both helpers return
the single warning log entry — and with the dummy reporter, no log at
all. -/
theorem C9_witness :
    record_histogram_duration failingReporter "histo" 5 2 [] =
        [.warn "observe_hist failed"]
      ∧ add_to_gauge failingReporter "gauge" 1 [] = [.warn "add_gauge failed"]
      ∧ record_histogram_duration DummyReporter "histo" 5 2 [] = []
      ∧ add_to_gauge DummyReporter "gauge" 1 [] = [] :=
  ⟨(C9_helpers_never_fail failingReporter "histo" 5 2 1 []).1
      (.invalidMetric "boom") rfl,
   (C9_helpers_never_fail failingReporter "gauge" 5 2 1 []).2.2.1
      (.invalidMetric "boom") rfl,
   (C9_helpers_never_fail DummyReporter "histo" 5 2 1 []).2.1 rfl,
   (C9_helpers_never_fail DummyReporter "gauge" 5 2 1 []).2.2.2 rfl⟩

/-- Length of the bucket loop output equals the iteration count. -/
theorem bucketsLoop_length (factor : Rat) :
    ∀ (next : Rat) (n : Nat), (bucketsLoop factor next n).length = n
  | _, 0 => rfl
  | next, n + 1 => congrArg Nat.succ (bucketsLoop_length factor (next * factor) n)

/-- First element of a nonempty bucket loop output is the running value. -/
theorem bucketsLoop_get_zero (factor next : Rat) (n : Nat) (h : 1 ≤ n) :
    (bucketsLoop factor next n).get? 0 = some next := by
  cases n with
  | zero => omega
  | succ m => rfl

/-- Each element of the bucket loop output after the first is the previous
element times the factor. -/
theorem bucketsLoop_get_succ (factor : Rat) :
    ∀ (next : Rat) (n i : Nat), i + 1 < n →
      (bucketsLoop factor next n).get? (i + 1) =
        ((bucketsLoop factor next n).get? i).map (fun x => x * factor) := by
  intro next n
  induction n generalizing next with
  | zero => intro i hi; omega
  | succ m ih =>
    intro i hi
    cases i with
    | zero =>
      have hm : 1 ≤ m := by omega
      show (next :: bucketsLoop factor (next * factor) m).get? 1 =
        ((next :: bucketsLoop factor (next * factor) m).get? 0).map (fun x => x * factor)
      rw [List.get?_cons_succ, List.get?_cons_zero,
        bucketsLoop_get_zero factor (next * factor) m hm]
      rfl
    | succ j =>
      have hj : j + 1 < m := by omega
      show (next :: bucketsLoop factor (next * factor) m).get? (j + 2) =
        ((next :: bucketsLoop factor (next * factor) m).get? (j + 1)).map (fun x => x * factor)
      rw [List.get?_cons_succ, List.get?_cons_succ]
      exact ih (next * factor) j hj

/-- C10: for start above zero, factor above one and count at least one,
exponential_buckets returns the bucket list of exactly count elements whose
first element is start and in which every later element is the previous one
multiplied by factor; when a precondition is violated the function panics
(at the corresponding assertion) instead of returning a value. -/
theorem C10_exponential_buckets (start factor : Rat) (count : Nat) :
    (start > 0 → factor > 1 → count ≥ 1 →
        exponential_buckets start factor count = .value (bucketsLoop factor start count)
          ∧ (bucketsLoop factor start count).length = count
          ∧ (bucketsLoop factor start count).get? 0 = some start
          ∧ ∀ i, i + 1 < count →
            (bucketsLoop factor start count).get? (i + 1) =
              ((bucketsLoop factor start count).get? i).map (fun x => x * factor))
      ∧ (¬ count ≥ 1 →
        exponential_buckets start factor count = .panicked "assertion failed: count >= 1")
      ∧ (count ≥ 1 → ¬ start > 0 →
        exponential_buckets start factor count = .panicked "assertion failed: start > 0.0")
      ∧ (count ≥ 1 → start > 0 → ¬ factor > 1 →
        exponential_buckets start factor count = .panicked "assertion failed: factor > 1.0") := by
  refine ⟨?_, ?_, ?_, ?_⟩
  · intro hs hf hc
    refine ⟨?_, bucketsLoop_length factor start count,
      bucketsLoop_get_zero factor start count hc,
      fun i hi => bucketsLoop_get_succ factor start count i hi⟩
    simp [exponential_buckets, hs, hf, hc]
  · intro hc
    simp [exponential_buckets, hc]
  · intro hc hs
    simp [exponential_buckets, hc, hs]
  · intro hc hs hf
    simp [exponential_buckets, hc, hs, hf]

/-- C10 witness: the documentation example — buckets 1, 2.5, 6.25, 15.625,
39.0625 as rationals — plus a concrete step equation and the panic on a
zero count. -/
theorem C10_witness :
    Metrics.exponential_buckets 1 (5 / 2) 5 =
        .value (Metrics.bucketsLoop (5 / 2) 1 5)
      ∧ (Metrics.bucketsLoop (5 / 2) 1 5).length = 5
      ∧ (Metrics.bucketsLoop (5 / 2) 1 5).get? 0 = some 1
      ∧ Metrics.exponential_buckets 1 (5 / 2) 0 =
        .panicked "assertion failed: count >= 1" :=
  ⟨((C10_exponential_buckets 1 (5 / 2) 5).1 (by norm_num) (by norm_num)
      (by norm_num)).1,
   ((C10_exponential_buckets 1 (5 / 2) 5).1 (by norm_num) (by norm_num)
      (by norm_num)).2.1,
   ((C10_exponential_buckets 1 (5 / 2) 5).1 (by norm_num) (by norm_num)
      (by norm_num)).2.2.1,
   (C10_exponential_buckets 1 (5 / 2) 0).2.1 (by norm_num)⟩

end Metrics
